import Mathlib

/-!
Shallow embedding of the `cargo-apk` core (files `cargo-apk/src/apk.rs` and
`ndk-build/src/util.rs`): the signing-key resolver, the minimum-SDK policy,
per-artifact manifest defaulting, subprocess output capture, the sequential
multi-target build loop, and the device-process monitor loop.
-/

namespace CargoApk

/-! ## Profiles and signing keys (`cargo-apk/src/apk.rs`, `ApkBuilder::build`) -/

/-- Build profile, mirroring `cargo_subcommand::Profile` as used by
`ApkBuilder::build` (lines 257-261): `Dev`, `Release`, or `Custom(name)`. -/
inductive Profile where
  | dev
  | release
  | custom (name : String)
deriving DecidableEq, Repr

/-- The profile name string computed at apk.rs:257-261. -/
def Profile.name : Profile → String
  | .dev => "dev"
  | .release => "release"
  | .custom c => c

/-- `is_debug_profile` (apk.rs:186): `*self.cmd.profile() == Profile::Dev`. -/
def Profile.isDebug : Profile → Bool
  | .dev => true
  | _ => false

/-- `ndk_build::ndk::Key`: a keystore path and a password. -/
structure Key where
  path : String
  password : String
deriving DecidableEq, Repr

/-- Modelled from the spec: `ndk_build::ndk::DEFAULT_DEV_KEYSTORE_PASSWORD`
is defined in `ndk-build/src/ndk.rs`, which is not among the provided source
files; the spec describes it as "a fixed, publicly known default development
password". Its concrete value is irrelevant to the claims; only that it is a
fixed constant matters. -/
def DEFAULT_DEV_KEYSTORE_PASSWORD : String := "android"

/-- A `[package.metadata.android.signing.<profile>]` entry from the manifest
(`msk` at apk.rs:294): a keystore path and a keystore password. -/
structure ManifestSigningKey where
  path : String
  keystore_password : String
deriving DecidableEq, Repr

/-- `PathBuf::join` of a base directory with a (relative) path, modelled as
component concatenation with a separator (apk.rs:296: `crate_path.join(&msk.path)`). -/
def pathJoin (base p : String) : String := base ++ "/" ++ p

/-- The error variants of `cargo-apk`'s `Error` that the embedded code can
produce. `MissingReleaseKey` carries the offending profile name
(apk.rs:291,302). -/
inductive Error where
  | missingReleaseKey (profile : String)
  | cmdFailed (diagnostic : List Nat)
  | other (tag : String)
deriving DecidableEq, Repr

/-- The signing-key resolution of `ApkBuilder::build` (apk.rs:263-305): a
`match` on the pair `(path, password)` read from the per-profile environment
variables. Returns the chosen key together with a flag recording whether the
"falling back to default password" warning was emitted (the `eprintln!` at
apk.rs:275), or the `MissingReleaseKey` error.

Inputs: `profile` (determining `profile_name` and `is_debug_profile`),
`cratePath` (the manifest's parent directory, apk.rs:184), `envPath` /
`envPassword` (the values of `CARGO_APK_<P>_KEYSTORE` and
`CARGO_APK_<P>_KEYSTORE_PASSWORD`), `configured` (the result of
`self.manifest.signing.get(profile_name)`), and `debugKey` (the key returned
by `self.ndk.debug_key()`, an external collaborator assumed to succeed). -/
def resolveSigningKey (profile : Profile) (cratePath : String)
    (envPath : Option String) (envPassword : Option String)
    (configured : Option ManifestSigningKey) (debugKey : Key) :
    Except Error (Key × Bool) :=
  match envPath, envPassword with
  | some path, some password => .ok (⟨path, password⟩, false)
  | some path, none =>
    if profile.isDebug then
      .ok (⟨path, DEFAULT_DEV_KEYSTORE_PASSWORD⟩, true)
    else
      .error (.missingReleaseKey profile.name)
  | none, _ =>
    match configured with
    | some msk => .ok (⟨pathJoin cratePath msk.path, msk.keystore_password⟩, false)
    | none =>
      if profile.isDebug then
        .ok (debugKey, false)
      else
        .error (.missingReleaseKey profile.name)

/-! ## Minimum SDK version (`ApkBuilder::min_sdk_version`, apk.rs:423-430) -/

/-- `ApkBuilder::min_sdk_version`:
`self.manifest.android_manifest.sdk.min_sdk_version.unwrap_or(23).max(23)`. -/
def min_sdk_version (configured : Option Nat) : Nat :=
  max (configured.getD 23) 23

/-- Modelled from the spec (for comparison with `min_sdk_version`, which is
the source's function): "read from configuration if present, otherwise derive
from the toolchain's own reported default, then clamp to a floor of 23". The
toolchain's reported default platform is `ndkDefault`. -/
def minSdkVersionSpec (configured : Option Nat) (ndkDefault : Nat) : Nat :=
  max (configured.getD ndkDefault) 23

/-! ## Process output capture (`ndk-build/src/util.rs`) -/

/-- `Stream` (util.rs:11-15): the tag recording which standard stream a
captured chunk came from. -/
inductive Stream where
  | stderrS
  | stdoutS
deriving DecidableEq, Repr

/-- `Output` (util.rs:17-19): the ordered, shared log of captured chunks,
each tagged by its source stream. A byte is modelled as a `Nat`. -/
structure Output where
  output : List (Stream × List Nat)
deriving DecidableEq, Repr

/-- `Output::stdout` (util.rs:25-42): filter the chunks tagged `Stdout` and
concatenate their bytes into one vector, in arrival order (the
`extend_from_slice` loop is the `foldl` of list append). -/
def Output.stdout (o : Output) : List Nat :=
  ((o.output.filter fun x => x.1 == Stream.stdoutS).map fun x => x.2).foldl
    (fun val x => val ++ x) []

/-- `Output::stderr` (util.rs:44-51): concatenate the bytes of ALL captured
chunks — the iterator `self.output.iter().map(|x| &x.1)` carries no stream
filter — in arrival order. -/
def Output.stderr (o : Output) : List Nat :=
  (o.output.map fun x => x.2).foldl (fun val x => val ++ x) []

/-- The part of `output_error` (util.rs:54-111) that decides the verdict once
both reader threads have been joined: if the process exited successfully the
result is `Output::stdout` of the captured log, otherwise the failure carries
`Output::stderr` of the captured log as its diagnostic bytes. -/
def output_error (exitSuccess : Bool) (o : Output) :
    Except (List Nat) (List Nat) :=
  if exitSuccess then .ok o.stdout else .error o.stderr

/-- The spec's §4.1 "safe contract" diagnostic (for comparison with
`Output.stderr`, which is the source's function): the concatenation of the
chunks tagged as standard error only, in arrival order. -/
def stderrOnlyBytes (o : Output) : List Nat :=
  ((o.output.filter fun x => x.1 == Stream.stderrS).map fun x => x.2).flatten

/-- `o` interleaves the stdout-chunk sequence `sout` with the stderr-chunk
sequence `serr`: projecting `o` onto each stream tag recovers that stream's
chunks in order. -/
def IsInterleaving (o : Output) (sout serr : List (List Nat)) : Prop :=
  ((o.output.filter fun x => x.1 == Stream.stdoutS).map fun x => x.2) = sout
  ∧ ((o.output.filter fun x => x.1 == Stream.stderrS).map fun x => x.2) = serr

instance (o : Output) (sout serr : List (List Nat)) :
    Decidable (IsInterleaving o sout serr) := by
  unfold IsInterleaving; infer_instance

/-! ## Manifest defaulting (`ApkBuilder::from_subcommand` and
`ApkBuilder::build`, apk.rs:99-131 and apk.rs:162-182) -/

/-- `ndk_build::manifest::IntentFilter` as constructed at apk.rs:119-123:
actions, categories and data lists. -/
structure IntentFilter where
  actions : List String
  categories : List String
  data : List String
deriving DecidableEq, Repr

/-- `ndk_build::manifest::MetaData` as constructed at apk.rs:179-182. -/
structure MetaData where
  name : String
  value : String
deriving DecidableEq, Repr

/-- The activity element of the Android manifest: the fields of
`ndk_build::manifest` that apk.rs reads or writes (intent filters, metadata
entries, the `exported` flag). -/
structure Activity where
  intent_filter : List IntentFilter
  meta_data : List MetaData
  exported : Option Bool
deriving DecidableEq, Repr

/-- The application element: label, debuggable flag and the activity. -/
structure Application where
  label : String
  debuggable : Option Bool
  activity : Activity
deriving DecidableEq, Repr

/-- The sdk element: optional minimum and target SDK versions. -/
structure Sdk where
  min_sdk_version : Option Nat
  target_sdk_version : Option Nat
deriving DecidableEq, Repr

/-- The Android manifest fields that the defaulting code of apk.rs touches. -/
structure AndroidManifest where
  package : String
  sdk : Sdk
  application : Application
deriving DecidableEq, Repr

/-- `cargo_subcommand::ArtifactType`: `Lib`, `Bin` or `Example`. -/
inductive ArtifactType where
  | lib
  | bin
  | example
deriving DecidableEq, Repr

/-- `cargo_subcommand::Artifact`: a name and an artifact type. -/
structure Artifact where
  name : String
  type : ArtifactType
deriving DecidableEq, Repr

/-- `artifact.name.replace('-', "_")` (apk.rs:167,181): replace every hyphen
character with an underscore, expressed on the string's character list. -/
def replaceHyphens (s : String) : String :=
  ⟨s.data.map fun c => if c = '-' then '_' else c⟩

/-- The condition at apk.rs:114-118: no existing intent filter declares the
`android.intent.action.MAIN` action. -/
def noMainAction (filters : List IntentFilter) : Bool :=
  filters.all fun i => i.actions.all fun f => f != "android.intent.action.MAIN"

/-- The intent filter pushed at apk.rs:119-123. -/
def mainIntentFilter : IntentFilter :=
  ⟨["android.intent.action.MAIN"], ["android.intent.category.LAUNCHER"], []⟩

/-- The manifest-defaulting part of `ApkBuilder::from_subcommand`
(apk.rs:99-131), run once per build: default the target SDK version to the
toolchain's reported default platform (`get_or_insert_with`), default
`debuggable` to whether the profile is `Dev`, synthesize a `MAIN`/`LAUNCHER`
intent filter when none declares the `MAIN` action, and on target SDK 31+
default the activity's `exported` flag to `true` (`get_or_insert`). -/
def fromSubcommandDefaults (profile : Profile) (ndkDefaultPlatform : Nat)
    (m : AndroidManifest) : AndroidManifest :=
  let target_sdk_version := m.sdk.target_sdk_version.getD ndkDefaultPlatform
  let sdk := { m.sdk with target_sdk_version := some target_sdk_version }
  let debuggable := some (m.application.debuggable.getD profile.isDebug)
  let activity := m.application.activity
  let activity :=
    if noMainAction activity.intent_filter then
      { activity with intent_filter := activity.intent_filter ++ [mainIntentFilter] }
    else activity
  let activity :=
    if 31 ≤ target_sdk_version then
      { activity with exported := some (activity.exported.getD true) }
    else activity
  { m with
    sdk := sdk
    application := { m.application with debuggable := debuggable, activity := activity } }

/-- The default package id (apk.rs:168-172): `rust.<name>` for `Lib` and
`Bin` artifacts, `rust.example.<name>` for `Example` artifacts, with `name`
already hyphen-replaced. -/
def packageDefault (t : ArtifactType) (name : String) : String :=
  match t with
  | .lib => "rust." ++ name
  | .bin => "rust." ++ name
  | .example => "rust.example." ++ name

/-- The metadata entry always pushed at apk.rs:179-182. -/
def libNameMetaData (a : Artifact) : MetaData :=
  ⟨"android.app.lib_name", replaceHyphens a.name⟩

/-- The artifact-specific manifest defaulting at the start of
`ApkBuilder::build` (apk.rs:164-182): default the package id when empty,
default the label to the artifact name when empty, and unconditionally push
the `android.app.lib_name` metadata entry. Rust's `String::is_empty` (zero
bytes) is the emptiness of the character list. -/
def buildDefaults (a : Artifact) (m : AndroidManifest) : AndroidManifest :=
  let m :=
    if m.package.data.isEmpty then
      { m with package := packageDefault a.type (replaceHyphens a.name) }
    else m
  let m :=
    if m.application.label.data.isEmpty then
      { m with application := { m.application with label := a.name } }
    else m
  { m with application := { m.application with activity :=
      { m.application.activity with meta_data :=
          m.application.activity.meta_data ++ [libNameMetaData a] } } }

/-- The complete per-artifact defaulting step named by the spec: the
`from_subcommand` defaults (run on the shared manifest) followed by the
per-artifact defaults of `build`. -/
def defaultingStep (profile : Profile) (ndkDefaultPlatform : Nat)
    (a : Artifact) (m : AndroidManifest) : AndroidManifest :=
  buildDefaults a (fromSubcommandDefaults profile ndkDefaultPlatform m)

/-! ## Multi-target build loop (`ApkBuilder::build`, apk.rs:222-255 and
apk.rs:307-314) -/

/-- `ndk_build::target::Target`: the supported Android ABI targets. -/
inductive Target where
  | armV7a
  | arm64V8a
  | x86
  | x86_64
deriving DecidableEq, Repr

/-- An observable step of `ApkBuilder::build`: invoking `cargo build` for a
target (apk.rs:239), resolving and adding that target's libraries
(apk.rs:241-254), finalizing the package (`add_pending_libs_and_align`,
apk.rs:307) and signing it (apk.rs:314). -/
inductive BuildEvent where
  | compileInvoked (t : Target)
  | libsInvoked (t : Target)
  | finalized
  | signed
deriving DecidableEq, Repr

/-- The per-target loop of `ApkBuilder::build` (apk.rs:222-255): for each
target in order, run the cross compilation (`output_error(cargo)?`, which
propagates failure with `?`) and then the library resolution
(`get_libs_search_paths`/`add_lib_recursively`/`add_runtime_libs`, each also
propagated with `?`). Returns the trace of invoked steps and the first
failure, if any. -/
def buildTargetsLoop (compile addLibs : Target → Except Error Unit) :
    List Target → List BuildEvent × Option Error
  | [] => ([], none)
  | t :: ts =>
    match compile t with
    | .error e => ([.compileInvoked t], some e)
    | .ok _ =>
      match addLibs t with
      | .error e => ([.compileInvoked t, .libsInvoked t], some e)
      | .ok _ =>
        let r := buildTargetsLoop compile addLibs ts
        (.compileInvoked t :: .libsInvoked t :: r.1, r.2)

/-- The tail of `ApkBuilder::build` around the loop (apk.rs:222-314): run the
per-target loop, then resolve the signing key, then finalize
(`add_pending_libs_and_align`) and sign the package — each step reached only
when every earlier step succeeded, any failure propagating out with `?`. The
external collaborators' outcomes are the `resolveKey`, `alignResult` and
`signResult` parameters. -/
def buildArtifact (compile addLibs : Target → Except Error Unit)
    (resolveKey : Except Error Key) (alignResult signResult : Except Error Unit)
    (targets : List Target) : List BuildEvent × Except Error Unit :=
  match buildTargetsLoop compile addLibs targets with
  | (tr, some e) => (tr, .error e)
  | (tr, none) =>
    match resolveKey with
    | .error e => (tr, .error e)
    | .ok _ =>
      match alignResult with
      | .error e => (tr ++ [.finalized], .error e)
      | .ok _ =>
        match signResult with
        | .error e => (tr ++ [.finalized, .signed], .error e)
        | .ok _ => (tr ++ [.finalized, .signed], .ok ())

/-! ## Device process monitor (`ApkBuilder::run`, apk.rs:324-354) -/

/-- The `pidof` polling loop of `ApkBuilder::run` (apk.rs:325-341): each
iteration sleeps, polls attempt `i` for the package's process id, breaks with
the captured stdout bytes on success, and on failure emits the one-time
"Waiting for the app to start!" notice if `waiting` is still false, setting
`waiting`. The source loop is unbounded; `fuel` bounds the observation.
Returns the number of notices emitted and the pid bytes if a poll succeeded
within `fuel` attempts. -/
def pidPollLoop (poll : Nat → Option (List Nat)) :
    Nat → Nat → Bool → Nat × Option (List Nat)
  | 0, _, _ => (0, none)
  | fuel+1, i, waiting =>
    match poll i with
    | some out => (0, some out)
    | none =>
      let r := pidPollLoop poll fuel (i+1) true
      ((if waiting then 0 else 1) + r.1, r.2)

/-- The polling phase as entered at apk.rs:325-326: attempt counter 0,
`waiting` initially false. The log-streaming `adb logcat` subprocess
(apk.rs:346-354) is spawned exactly when this returns a pid, i.e. when the
second component is `some`. -/
def waitForProcess (poll : Nat → Option (List Nat)) (fuel : Nat) :
    Nat × Option (List Nat) :=
  pidPollLoop poll fuel 0 false

/-! ## Claims C1, C10, C4, C5 -/

/-- Claim C1: the signing-key resolver picks exactly one outcome in the documented
order: both env vars set → key verbatim from them; only the path set and
profile dev → that path with the fixed default development password plus a
warning; only the path set and profile not dev → `MissingReleaseKey` naming
the profile; neither set with a configured per-profile entry → that entry
with its path resolved against the manifest directory; neither set, no entry
→ the debug key for dev and `MissingReleaseKey` naming the profile
otherwise. -/
theorem signing_key_resolution_cases (profile : Profile) (cratePath : String)
    (p pw : String) (cfg : Option ManifestSigningKey)
    (msk : ManifestSigningKey) (dk : Key) :
    (resolveSigningKey profile cratePath (some p) (some pw) cfg dk
        = .ok (⟨p, pw⟩, false))
    ∧ (profile = .dev →
        resolveSigningKey profile cratePath (some p) none cfg dk
          = .ok (⟨p, DEFAULT_DEV_KEYSTORE_PASSWORD⟩, true))
    ∧ (profile ≠ .dev →
        resolveSigningKey profile cratePath (some p) none cfg dk
          = .error (.missingReleaseKey profile.name))
    ∧ (resolveSigningKey profile cratePath none none (some msk) dk
        = .ok (⟨pathJoin cratePath msk.path, msk.keystore_password⟩, false))
    ∧ (profile = .dev →
        resolveSigningKey profile cratePath none none none dk
          = .ok (dk, false))
    ∧ (profile ≠ .dev →
        resolveSigningKey profile cratePath none none none dk
          = .error (.missingReleaseKey profile.name)) := by
  refine ⟨rfl, ?_, ?_, rfl, ?_, ?_⟩
  · rintro rfl; rfl
  · intro h
    cases profile with
    | dev => exact absurd rfl h
    | release => rfl
    | custom c => rfl
  · rintro rfl; rfl
  · intro h
    cases profile with
    | dev => exact absurd rfl h
    | release => rfl
    | custom c => rfl

/-- Witness for `signing_key_resolution_cases` at concrete inputs, once for
the dev profile and once for release (discharging both kinds of
hypotheses). -/
theorem signing_key_resolution_cases_witness :
    (Profile.release ≠ Profile.dev
      ∧ resolveSigningKey Profile.release "crate" (some "ks") none none ⟨"dk", "pw"⟩
          = .error (.missingReleaseKey "release"))
    ∧ (Profile.dev = Profile.dev
      ∧ resolveSigningKey Profile.dev "crate" none none none ⟨"dk", "pw"⟩
          = .ok (⟨"dk", "pw"⟩, false)) := by
  have h1 := signing_key_resolution_cases Profile.release "crate" "ks" "pw"
    none ⟨"m", "mp"⟩ ⟨"dk", "pw"⟩
  have h2 := signing_key_resolution_cases Profile.dev "crate" "ks" "pw"
    none ⟨"m", "mp"⟩ ⟨"dk", "pw"⟩
  exact ⟨⟨by decide, h1.2.2.1 (by decide)⟩, ⟨rfl, h2.2.2.2.2.1 rfl⟩⟩

/-- Claim C10: when the password environment variable is set but the path variable
is unset, the password value is ignored entirely: resolution proceeds exactly
as if neither variable were set. -/
theorem password_without_path_ignored (profile : Profile) (cratePath : String)
    (pw : String) (cfg : Option ManifestSigningKey) (dk : Key) :
    resolveSigningKey profile cratePath none (some pw) cfg dk
      = resolveSigningKey profile cratePath none none cfg dk := rfl

/-- Claim C4: the resolved minimum SDK version is at least 23 and equals the
configured value whenever that value is at least 23; configured 19 resolves
to 23 and configured 30 resolves to 30. -/
theorem min_sdk_version_floor (v : Nat) :
    23 ≤ min_sdk_version (some v)
    ∧ (23 ≤ v → min_sdk_version (some v) = v)
    ∧ min_sdk_version (some 19) = 23
    ∧ min_sdk_version (some 30) = 30 := by
  refine ⟨Nat.le_max_right _ _, fun h => ?_, rfl, rfl⟩
  simp [min_sdk_version, Nat.max_eq_left h]

/-- Witness for `min_sdk_version_floor` at the concrete configured value 30. -/
theorem min_sdk_version_floor_witness :
    23 ≤ 30 ∧ min_sdk_version (some 30) = 30 :=
  ⟨by decide, (min_sdk_version_floor 30).2.1 (by decide)⟩

/-- Claim C5 counterexample: with no configured minimum SDK the code returns the
fixed constant 23, not the toolchain's reported default clamped to 23: for a
toolchain default of 30 the spec-modelled value is 30 while the code yields
23. -/
theorem min_sdk_default_not_toolchain_derived :
    min_sdk_version none = 23
    ∧ minSdkVersionSpec none 30 = 30
    ∧ min_sdk_version none ≠ minSdkVersionSpec none 30 := by
  refine ⟨rfl, rfl, by decide⟩

/-- Claim C5 amended: when no minimum SDK version is configured, the resolved value
is the fixed constant 23 (the floor itself), independent of the toolchain's
reported default platform version. -/
theorem min_sdk_default_is_constant :
    min_sdk_version none = 23 ∧ 23 ≤ min_sdk_version none := ⟨rfl, by decide⟩

/-! ## Claims C2, C3 -/

/-- The `extend_from_slice` fold equals flat concatenation. -/
theorem foldl_append_eq_flatten (l : List (List Nat)) :
    l.foldl (fun val x => val ++ x) [] = l.flatten := by
  have h : ∀ (l : List (List Nat)) (acc : List Nat),
      l.foldl (fun val x => val ++ x) acc = acc ++ l.flatten := by
    intro l
    induction l with
    | nil => intro acc; simp
    | cons x xs ih => intro acc; simp [List.foldl_cons, ih, List.append_assoc]
  simpa using h l []

/-- Claim C2 counterexample: on a non-zero exit with one captured stdout chunk
`[1]` followed by one stderr chunk `[2]`, the diagnostic is `[1, 2]` — the
stdout chunk appears in it — not the stderr-only concatenation `[2]`. -/
theorem diagnostic_includes_stdout_chunk :
    output_error false ⟨[(Stream.stdoutS, [1]), (Stream.stderrS, [2])]⟩
        = .error [1, 2]
    ∧ stderrOnlyBytes ⟨[(Stream.stdoutS, [1]), (Stream.stderrS, [2])]⟩ = [2]
    ∧ output_error false ⟨[(Stream.stdoutS, [1]), (Stream.stderrS, [2])]⟩
        ≠ .error (stderrOnlyBytes ⟨[(Stream.stdoutS, [1]), (Stream.stderrS, [2])]⟩) := by
  refine ⟨rfl, rfl, ?_⟩
  intro h
  simp [output_error, Output.stderr, stderrOnlyBytes] at h

/-- Claim C2 amended: on a non-zero exit the diagnostic bytes are the concatenation
of ALL captured chunks — both the standard-error and the standard-output
tagged ones — in arrival order (`Output::stderr` applies no stream filter). -/
theorem diagnostic_is_all_chunks (o : Output) :
    output_error false o = .error ((o.output.map fun x => x.2).flatten) := by
  simp [output_error, Output.stderr, foldl_append_eq_flatten]

/-- Claim C3: on exit status 0, `output_error` returns exactly the standard-output
bytes, byte-for-byte in arrival order, for every interleaving of the stdout
chunk sequence with the stderr chunk sequence. -/
theorem success_output_is_stdout_bytes (sout serr : List (List Nat))
    (o : Output) (h : IsInterleaving o sout serr) :
    output_error true o = .ok sout.flatten := by
  obtain ⟨h1, _⟩ := h
  simp [output_error, Output.stdout, foldl_append_eq_flatten, h1]

/-- Witness for `success_output_is_stdout_bytes`: a concrete log in which a
stderr chunk arrives between the two stdout chunks, and the result is still
exactly the stdout bytes in order. -/
theorem success_output_is_stdout_bytes_witness :
    IsInterleaving ⟨[(Stream.stdoutS, [1, 2]), (Stream.stderrS, [9]),
        (Stream.stdoutS, [3])]⟩ [[1, 2], [3]] [[9]]
    ∧ output_error true ⟨[(Stream.stdoutS, [1, 2]), (Stream.stderrS, [9]),
        (Stream.stdoutS, [3])]⟩ = .ok [1, 2, 3] :=
  ⟨by decide, success_output_is_stdout_bytes [[1, 2], [3]] [[9]] _ (by decide)⟩

/-! ## Supporting lemmas on manifest defaulting -/

/-- After `fromSubcommandDefaults`, some intent filter declares the `MAIN`
action: either one already did, or the synthesized filter does. -/
theorem noMainAction_fromSubcommandDefaults (p : Profile) (d : Nat)
    (m : AndroidManifest) :
    noMainAction (fromSubcommandDefaults p d m).application.activity.intent_filter
      = false := by
  simp only [fromSubcommandDefaults]
  split_ifs with h1 h2 <;>
    simp_all [noMainAction, List.all_append, mainIntentFilter]

/-- `fromSubcommandDefaults` leaves the activity's metadata untouched. -/
theorem fromSubcommandDefaults_meta_data (p : Profile) (d : Nat)
    (m : AndroidManifest) :
    (fromSubcommandDefaults p d m).application.activity.meta_data
      = m.application.activity.meta_data := by
  simp only [fromSubcommandDefaults]
  split_ifs <;> rfl

/-- The target SDK version after `fromSubcommandDefaults` is the configured
value when present, otherwise the toolchain's default platform. -/
theorem fromSubcommandDefaults_tsv (p : Profile) (d : Nat)
    (m : AndroidManifest) :
    (fromSubcommandDefaults p d m).sdk.target_sdk_version
      = some (m.sdk.target_sdk_version.getD d) := rfl

/-- The exported flag after `fromSubcommandDefaults`: on target SDK 31+ it is
the prior flag defaulted to `true`, otherwise it is the prior flag. -/
theorem fromSubcommandDefaults_exported (p : Profile) (d : Nat)
    (m : AndroidManifest) :
    (fromSubcommandDefaults p d m).application.activity.exported
      = (if 31 ≤ m.sdk.target_sdk_version.getD d then
          some (m.application.activity.exported.getD true)
        else m.application.activity.exported) := by
  simp only [fromSubcommandDefaults]
  split_ifs <;> rfl

/-- `fromSubcommandDefaults` is the identity on a manifest whose defaulted
fields are already filled: target SDK and debuggable present, a `MAIN` intent
filter present, and (on target SDK 31+) the exported flag present. -/
theorem fromSubcommandDefaults_fixed (p : Profile) (d : Nat)
    (m : AndroidManifest)
    (h1 : (m.sdk.target_sdk_version).isSome)
    (h2 : (m.application.debuggable).isSome)
    (h3 : noMainAction m.application.activity.intent_filter = false)
    (h4 : 31 ≤ m.sdk.target_sdk_version.getD d →
      (m.application.activity.exported).isSome) :
    fromSubcommandDefaults p d m = m := by
  obtain ⟨pkg, ⟨msv, tsv⟩, ⟨label, dbg, ⟨filters, md, exp⟩⟩⟩ := m
  simp only [Option.isSome_iff_exists] at h1 h2
  obtain ⟨v, rfl⟩ := h1
  obtain ⟨b, rfl⟩ := h2
  simp only at h3 h4
  simp only [fromSubcommandDefaults, Option.getD_some]
  have hM : ¬ (noMainAction filters = true) := by simp [h3]
  rw [if_neg hM]
  by_cases hE : 31 ≤ v
  · obtain ⟨e, rfl⟩ : ∃ e, exp = some e := by
      simpa [Option.isSome_iff_exists] using h4 (by simpa using hE)
    rw [if_pos hE]
    rfl
  · rw [if_neg hE]

/-- `buildDefaults` leaves the sdk element untouched. -/
theorem buildDefaults_sdk (a : Artifact) (m : AndroidManifest) :
    (buildDefaults a m).sdk = m.sdk := by
  simp only [buildDefaults]
  split_ifs <;> rfl

/-- `buildDefaults` leaves the debuggable flag untouched. -/
theorem buildDefaults_debuggable (a : Artifact) (m : AndroidManifest) :
    (buildDefaults a m).application.debuggable = m.application.debuggable := by
  simp only [buildDefaults]
  split_ifs <;> rfl

/-- `buildDefaults` leaves the intent filters untouched. -/
theorem buildDefaults_intent_filter (a : Artifact) (m : AndroidManifest) :
    (buildDefaults a m).application.activity.intent_filter
      = m.application.activity.intent_filter := by
  simp only [buildDefaults]
  split_ifs <;> rfl

/-- `buildDefaults` leaves the exported flag untouched. -/
theorem buildDefaults_exported (a : Artifact) (m : AndroidManifest) :
    (buildDefaults a m).application.activity.exported
      = m.application.activity.exported := by
  simp only [buildDefaults]
  split_ifs <;> rfl

/-- `buildDefaults` appends exactly the `android.app.lib_name` metadata
entry. -/
theorem buildDefaults_meta_data (a : Artifact) (m : AndroidManifest) :
    (buildDefaults a m).application.activity.meta_data
      = m.application.activity.meta_data ++ [libNameMetaData a] := by
  simp only [buildDefaults]
  split_ifs <;> rfl

/-- `fromSubcommandDefaults` is the identity on the output of a full
defaulting pass: `buildDefaults` preserves every field that
`fromSubcommandDefaults` fills. -/
theorem fromSubcommandDefaults_after_pass (p : Profile) (d : Nat)
    (a : Artifact) (m : AndroidManifest) :
    fromSubcommandDefaults p d (buildDefaults a (fromSubcommandDefaults p d m))
      = buildDefaults a (fromSubcommandDefaults p d m) := by
  apply fromSubcommandDefaults_fixed
  · rw [buildDefaults_sdk]; rfl
  · rw [buildDefaults_debuggable]; rfl
  · rw [buildDefaults_intent_filter]
    exact noMainAction_fromSubcommandDefaults p d m
  · intro h
    rw [buildDefaults_sdk, fromSubcommandDefaults_tsv] at h
    simp only [Option.getD_some] at h
    rw [buildDefaults_exported, fromSubcommandDefaults_exported, if_pos h]
    simp

/-- A second `buildDefaults` changes only the metadata list, appending one
more `android.app.lib_name` entry: the package and label defaults are filled
with the same values either way. -/
theorem buildDefaults_buildDefaults (a : Artifact) (m : AndroidManifest) :
    buildDefaults a (buildDefaults a m)
      = { buildDefaults a m with application :=
          { (buildDefaults a m).application with activity :=
            { (buildDefaults a m).application.activity with meta_data :=
              (buildDefaults a m).application.activity.meta_data
                ++ [libNameMetaData a] } } } := by
  obtain ⟨pkg, sdk, ⟨label, dbg, ⟨filters, md, exp⟩⟩⟩ := m
  simp only [buildDefaults]
  split_ifs <;> simp_all

/-! ## Claims C6, C7 -/

/-- Claim C6 counterexample: the per-artifact defaulting step is not
idempotent — on an initially blank descriptor, a second application appends a
second `android.app.lib_name` metadata entry, changing the descriptor. -/
theorem defaulting_twice_changes_descriptor :
    defaultingStep Profile.dev 30 ⟨"hello-world", .lib⟩
        (defaultingStep Profile.dev 30 ⟨"hello-world", .lib⟩
          ⟨"", ⟨none, none⟩, ⟨"", none, ⟨[], [], none⟩⟩⟩)
      ≠ defaultingStep Profile.dev 30 ⟨"hello-world", .lib⟩
          ⟨"", ⟨none, none⟩, ⟨"", none, ⟨[], [], none⟩⟩⟩ := by
  decide

/-- Claim C6 amended: applying the per-artifact defaulting step a second time
to an already-defaulted descriptor changes nothing except the activity's
metadata list, to which it appends one more `android.app.lib_name` entry (the
source pushes that entry unconditionally); package id, label, intent filters,
exported flag, debuggable flag and sdk element are all unchanged. -/
theorem defaulting_second_application (p : Profile) (d : Nat) (a : Artifact)
    (m : AndroidManifest) :
    defaultingStep p d a (defaultingStep p d a m)
      = { defaultingStep p d a m with application :=
          { (defaultingStep p d a m).application with activity :=
            { (defaultingStep p d a m).application.activity with meta_data :=
              (defaultingStep p d a m).application.activity.meta_data
                ++ [libNameMetaData a] } } } := by
  simp only [defaultingStep]
  rw [fromSubcommandDefaults_after_pass]
  exact buildDefaults_buildDefaults a (fromSubcommandDefaults p d m)

/-- Claim C7: when the resolved target SDK version is 31 or above an unset
exported flag is defaulted to `true`; an explicitly set flag (true or false)
is never overwritten; and below 31 an unset flag is left unset. -/
theorem exported_default_policy (p : Profile) (d : Nat) (m : AndroidManifest)
    (b : Bool) :
    (31 ≤ m.sdk.target_sdk_version.getD d →
      m.application.activity.exported = none →
      (fromSubcommandDefaults p d m).application.activity.exported = some true)
    ∧ (m.application.activity.exported = some b →
      (fromSubcommandDefaults p d m).application.activity.exported = some b)
    ∧ (m.sdk.target_sdk_version.getD d < 31 →
      m.application.activity.exported = none →
      (fromSubcommandDefaults p d m).application.activity.exported = none) := by
  refine ⟨?_, ?_, ?_⟩
  · intro h31 hnone
    rw [fromSubcommandDefaults_exported, if_pos h31, hnone]
    rfl
  · intro hb
    rw [fromSubcommandDefaults_exported]
    split_ifs with h
    · rw [hb]
      rfl
    · exact hb
  · intro h31 hnone
    rw [fromSubcommandDefaults_exported, if_neg (not_le.mpr h31)]
    exact hnone

/-- Witness for `exported_default_policy` at three concrete manifests: target
SDK 31 with an unset flag (defaulted to true), target SDK 31 with an
explicitly false flag (kept false), and target SDK defaulted to 28 with an
unset flag (left unset). -/
theorem exported_default_policy_witness :
    ((fromSubcommandDefaults Profile.dev 30
        ⟨"", ⟨none, some 31⟩, ⟨"", none, ⟨[], [], none⟩⟩⟩).application.activity.exported
      = some true)
    ∧ ((fromSubcommandDefaults Profile.dev 30
        ⟨"", ⟨none, some 31⟩, ⟨"", none, ⟨[], [], some false⟩⟩⟩).application.activity.exported
      = some false)
    ∧ ((fromSubcommandDefaults Profile.dev 28
        ⟨"", ⟨none, none⟩, ⟨"", none, ⟨[], [], none⟩⟩⟩).application.activity.exported
      = none) :=
  ⟨(exported_default_policy Profile.dev 30 _ true).1 (by decide) rfl,
   (exported_default_policy Profile.dev 30 _ false).2.1 rfl,
   (exported_default_policy Profile.dev 28 _ true).2.2 (by decide) rfl⟩

/-! ## Claim C8 -/

/-- When every target before `t` compiles and resolves its libraries and the
compilation of `t` fails, the per-target loop stops at `t`: the trace is
exactly the events of the earlier targets followed by `t`'s compilation, and
the failure is `t`'s error. -/
theorem buildTargetsLoop_abort (compile addLibs : Target → Except Error Unit)
    (pre : List Target) (t : Target) (post : List Target) (e : Error)
    (hpre : ∀ u ∈ pre, compile u = .ok () ∧ addLibs u = .ok ())
    (ht : compile t = .error e) :
    buildTargetsLoop compile addLibs (pre ++ t :: post)
      = ((pre.map fun u =>
            [BuildEvent.compileInvoked u, BuildEvent.libsInvoked u]).flatten
          ++ [BuildEvent.compileInvoked t], some e) := by
  induction pre with
  | nil => simp [buildTargetsLoop, ht]
  | cons u pre ih =>
    have hu := hpre u (by simp)
    have hrest : ∀ v ∈ pre, compile v = .ok () ∧ addLibs v = .ok () :=
      fun v hv => hpre v (by simp [hv])
    simp only [List.cons_append, buildTargetsLoop, hu.1, hu.2, List.append_eq]
    rw [ih hrest]
    simp

/-- When every target before `t` succeeds, `t`'s compilation succeeds but its
library resolution fails, the per-target loop stops at `t`: the trace is the
earlier targets' events followed by `t`'s compilation and library-resolution
steps, and the failure is the library-resolution error. -/
theorem buildTargetsLoop_abort_libs (compile addLibs : Target → Except Error Unit)
    (pre : List Target) (t : Target) (post : List Target) (e : Error)
    (hpre : ∀ u ∈ pre, compile u = .ok () ∧ addLibs u = .ok ())
    (htc : compile t = .ok ()) (ht : addLibs t = .error e) :
    buildTargetsLoop compile addLibs (pre ++ t :: post)
      = ((pre.map fun u =>
            [BuildEvent.compileInvoked u, BuildEvent.libsInvoked u]).flatten
          ++ [BuildEvent.compileInvoked t, BuildEvent.libsInvoked t], some e) := by
  induction pre with
  | nil => simp [buildTargetsLoop, htc, ht]
  | cons u pre ih =>
    have hu := hpre u (by simp)
    have hrest : ∀ v ∈ pre, compile v = .ok () ∧ addLibs v = .ok () :=
      fun v hv => hpre v (by simp [hv])
    simp only [List.cons_append, buildTargetsLoop, hu.1, hu.2, List.append_eq]
    rw [ih hrest]
    simp

/-- Claim C8: if compilation or library resolution of the k-th target fails
(after the earlier targets succeeded), the build aborts immediately
propagating that failure: the trace ends at the failing target's last step —
no later target's compilation is invoked — and the package is never finalized
nor signed. The first conjunct is the compilation-failure case, the second
the library-resolution-failure case. -/
theorem build_aborts_on_target_failure
    (compile addLibs : Target → Except Error Unit)
    (resolveKey : Except Error Key) (alignResult signResult : Except Error Unit)
    (pre : List Target) (t : Target) (post : List Target) (e : Error)
    (hpre : ∀ u ∈ pre, compile u = .ok () ∧ addLibs u = .ok ()) :
    (compile t = .error e →
      buildArtifact compile addLibs resolveKey alignResult signResult
          (pre ++ t :: post)
        = ((pre.map fun u =>
              [BuildEvent.compileInvoked u, BuildEvent.libsInvoked u]).flatten
            ++ [BuildEvent.compileInvoked t], .error e)
      ∧ BuildEvent.finalized ∉
          (buildArtifact compile addLibs resolveKey alignResult signResult
            (pre ++ t :: post)).1
      ∧ BuildEvent.signed ∉
          (buildArtifact compile addLibs resolveKey alignResult signResult
            (pre ++ t :: post)).1)
    ∧ (compile t = .ok () → addLibs t = .error e →
      buildArtifact compile addLibs resolveKey alignResult signResult
          (pre ++ t :: post)
        = ((pre.map fun u =>
              [BuildEvent.compileInvoked u, BuildEvent.libsInvoked u]).flatten
            ++ [BuildEvent.compileInvoked t, BuildEvent.libsInvoked t], .error e)
      ∧ BuildEvent.finalized ∉
          (buildArtifact compile addLibs resolveKey alignResult signResult
            (pre ++ t :: post)).1
      ∧ BuildEvent.signed ∉
          (buildArtifact compile addLibs resolveKey alignResult signResult
            (pre ++ t :: post)).1) := by
  constructor
  · intro ht
    have hloop := buildTargetsLoop_abort compile addLibs pre t post e hpre ht
    have hmain : buildArtifact compile addLibs resolveKey alignResult signResult
        (pre ++ t :: post)
        = ((pre.map fun u =>
              [BuildEvent.compileInvoked u, BuildEvent.libsInvoked u]).flatten
            ++ [BuildEvent.compileInvoked t], .error e) := by
      simp [buildArtifact, hloop]
    refine ⟨hmain, ?_, ?_⟩ <;>
    · rw [hmain]
      simp [List.mem_flatten]
  · intro htc ht
    have hloop := buildTargetsLoop_abort_libs compile addLibs pre t post e hpre htc ht
    have hmain : buildArtifact compile addLibs resolveKey alignResult signResult
        (pre ++ t :: post)
        = ((pre.map fun u =>
              [BuildEvent.compileInvoked u, BuildEvent.libsInvoked u]).flatten
            ++ [BuildEvent.compileInvoked t, BuildEvent.libsInvoked t], .error e) := by
      simp [buildArtifact, hloop]
    refine ⟨hmain, ?_, ?_⟩ <;>
    · rw [hmain]
      simp [List.mem_flatten]

/-- Witness for `build_aborts_on_target_failure`, once per failure kind:
three targets where the second one's compilation fails (trace stops at that
compilation), and three targets where the second one's library resolution
fails (trace stops at that resolution step); no finalize or sign event occurs
in either trace. -/
theorem build_aborts_on_target_failure_witness :
    (buildArtifact
        (fun t => if t = Target.arm64V8a then .error (.other "boom") else .ok ())
        (fun _ => .ok ()) (.ok ⟨"k", "p"⟩) (.ok ()) (.ok ())
        [Target.armV7a, Target.arm64V8a, Target.x86]
      = ([BuildEvent.compileInvoked Target.armV7a,
          BuildEvent.libsInvoked Target.armV7a,
          BuildEvent.compileInvoked Target.arm64V8a],
         .error (.other "boom")))
    ∧ (buildArtifact (fun _ => .ok ())
        (fun t => if t = Target.arm64V8a then .error (.other "libs") else .ok ())
        (.ok ⟨"k", "p"⟩) (.ok ()) (.ok ())
        [Target.armV7a, Target.arm64V8a, Target.x86]
      = ([BuildEvent.compileInvoked Target.armV7a,
          BuildEvent.libsInvoked Target.armV7a,
          BuildEvent.compileInvoked Target.arm64V8a,
          BuildEvent.libsInvoked Target.arm64V8a],
         .error (.other "libs"))) := by
  constructor
  · have h := (build_aborts_on_target_failure
        (fun t => if t = Target.arm64V8a then .error (.other "boom") else .ok ())
        (fun _ => .ok ()) (.ok ⟨"k", "p"⟩) (.ok ()) (.ok ())
        [Target.armV7a] Target.arm64V8a [Target.x86] (.other "boom")
        (fun u hu => by
          rcases List.mem_singleton.mp hu with rfl
          exact ⟨rfl, rfl⟩)).1 rfl
    simpa using h.1
  · have h := (build_aborts_on_target_failure (fun _ => .ok ())
        (fun t => if t = Target.arm64V8a then .error (.other "libs") else .ok ())
        (.ok ⟨"k", "p"⟩) (.ok ()) (.ok ())
        [Target.armV7a] Target.arm64V8a [Target.x86] (.other "libs")
        (fun u hu => by
          rcases List.mem_singleton.mp hu with rfl
          exact ⟨rfl, rfl⟩)).2 rfl rfl
    simpa using h.1

/-! ## Claim C9 -/

/-- When no poll ever succeeds the loop never produces a pid, for any amount
of fuel, from any attempt index and waiting state. -/
theorem pidPollLoop_never (poll : Nat → Option (List Nat))
    (h : ∀ n, poll n = none) :
    ∀ fuel i w, (pidPollLoop poll fuel i w).2 = none := by
  intro fuel
  induction fuel with
  | zero => intro i w; rfl
  | succ fuel ih => intro i w; simp [pidPollLoop, h i, ih]

/-- When the first successful poll is attempt `k`, the loop (run with enough
fuel from attempt `i ≤ k`) returns the pid with exactly one notice — emitted
on the first failing attempt — unless `waiting` was already set or there is
no failing attempt. -/
theorem pidPollLoop_first_success (poll : Nat → Option (List Nat))
    (k : Nat) (out : List Nat)
    (hk : poll k = some out) (hlt : ∀ n, n < k → poll n = none) :
    ∀ fuel i w, i ≤ k → k - i < fuel →
      pidPollLoop poll fuel i w
        = ((if w = true ∨ i = k then 0 else 1 : Nat), some out) := by
  intro fuel
  induction fuel with
  | zero => intro i w hik hf; omega
  | succ fuel ih =>
    intro i w hik hf
    by_cases hieq : i = k
    · subst hieq
      simp [pidPollLoop, hk]
    · have hmiss : poll i = none := hlt i (lt_of_le_of_ne hik hieq)
      simp only [pidPollLoop, hmiss]
      rw [ih (i+1) true (by omega) (by omega)]
      cases w <;> simp [hieq]

/-- Claim C9: with log streaming enabled, if the process-id poll never
succeeds no pid is ever produced (so no log-streaming subprocess is spawned);
and if the poll first succeeds on attempt `k` (0-based), exactly one
"waiting" notice is emitted when there was at least one failing attempt and
none when the first attempt succeeds. -/
theorem monitor_waiting_notice (poll : Nat → Option (List Nat))
    (out : List Nat) (k : Nat) :
    ((∀ n, poll n = none) → ∀ fuel, (waitForProcess poll fuel).2 = none)
    ∧ (poll k = some out → (∀ n, n < k → poll n = none) →
        ∀ fuel, k < fuel →
          waitForProcess poll fuel
            = ((if k = 0 then 0 else 1 : Nat), some out)) := by
  constructor
  · intro h fuel
    exact pidPollLoop_never poll h fuel 0 false
  · intro hk hlt fuel hf
    rw [waitForProcess,
      pidPollLoop_first_success poll k out hk hlt fuel 0 false (by omega) (by omega)]
    simp [eq_comm]

/-- Witness for `monitor_waiting_notice`: a poll that never succeeds yields
no pid after 3 attempts, and a poll first succeeding on attempt 2 yields the
pid bytes with exactly one notice. -/
theorem monitor_waiting_notice_witness :
    ((waitForProcess (fun _ => none) 3).2 = none)
    ∧ (waitForProcess (fun n => if n = 2 then some [52] else none) 5
        = (1, some [52])) := by
  constructor
  · exact (monitor_waiting_notice (fun _ => none) [] 0).1 (fun n => rfl) 3
  · have h := (monitor_waiting_notice
        (fun n => if n = 2 then some [52] else none) [52] 2).2
      (by decide) (by decide) 5 (by decide)
    simpa using h

end CargoApk
